import Mathlib

/-!
Verification of the timetracer core against its specification.

This file gives a shallow embedding, in Lean 4, of the parts of the
timetracer code base that the checked claims are about:

* `src/timetracer/types.py` — the cassette data model,
* `src/timetracer/session.py` — `TraceSession` and `ReplaySession`,
* `src/timetracer/cassette/io.py` — cassette serialization and reading,
* `src/timetracer/policies/redaction.py` — body redaction and PII masking,
* `src/timetracer/constants.py` — schema versions and redaction constants.

Python dynamic values that travel through JSON are modelled by the
`JVal` family below.  Python floats are modelled as rationals (no float
arithmetic occurs on the verified paths; the values are only stored and
compared).  Mutating methods are modelled as explicit state passing: a
method that can raise is modelled as returning an `Except` result paired
with the post-call state, so that "the state is unchanged on raise" is
expressible.  The file system and gzip layers of cassette io are
modelled as the identity on the serialized JSON mapping (json.dumps and
json.load are inverse on the mappings produced here, and gzip only
wraps the byte stream, for both compression settings).
-/

set_option maxRecDepth 10000

namespace Timetracer

/-! ## JSON-like dynamic values (model of Python dict/list/str/int/float/bool/None) -/

mutual

inductive JVal where
  | jnull : JVal
  | jbool : Bool → JVal
  | jstr : String → JVal
  | jint : Int → JVal
  | jnum : Rat → JVal
  | jarr : JArr → JVal
  | jobj : JObj → JVal

inductive JArr where
  | nil : JArr
  | cons : JVal → JArr → JArr

inductive JObj where
  | nil : JObj
  | cons : String → JVal → JObj → JObj

end

/-- Build a JSON array from a list of values. -/
def JArr.ofList : List JVal → JArr
  | [] => .nil
  | v :: rest => .cons v (JArr.ofList rest)

/-- Build a JSON object from an association list (insertion order kept,
as Python dicts keep insertion order). -/
def JObj.ofList : List (String × JVal) → JObj
  | [] => .nil
  | (k, v) :: rest => .cons k v (JObj.ofList rest)

/-- Model of Python `dict.get(key)` / `key in dict`: first binding wins. -/
def JObj.lookup : JObj → String → Option JVal
  | .nil, _ => none
  | .cons k v rest, key => if k = key then some v else JObj.lookup rest key

/-- Model of Python `d[key] = v`: update in place if the key exists,
else append at the end (Python dict assignment semantics). -/
def JObj.set : JObj → String → JVal → JObj
  | .nil, key, v => .cons key v .nil
  | .cons k w rest, key, v =>
      if k = key then .cons k v rest else .cons k w (JObj.set rest key v)

/-! ## Enums and constants (`constants.py`) -/

/-- `constants.SCHEMA_VERSION`. -/
def SCHEMA_VERSION : String := "1.0"

/-- `constants.SUPPORTED_SCHEMA_VERSIONS`. -/
def SUPPORTED_SCHEMA_VERSIONS : List String := ["0.1", "1.0"]

/-- `constants.EventType`. -/
inductive EventType where
  | http_client
  | db_query
  | redis
  | custom
deriving DecidableEq

/-- The `.value` of an `EventType` member. -/
def EventType.value : EventType → String
  | .http_client => "http.client"
  | .db_query => "db.query"
  | .redis => "redis"
  | .custom => "custom"

/-- Parse a string back into an `EventType`, as `EventType(data["type"])`
does; raises `ValueError` (modelled as `none`) on unknown values. -/
def EventType.ofString : String → Option EventType
  | "http.client" => some .http_client
  | "db.query" => some .db_query
  | "redis" => some .redis
  | "custom" => some .custom
  | _ => none

/-- `constants.CapturePolicy`. -/
inductive CapturePolicy where
  | never
  | on_error
  | always
deriving DecidableEq

/-- The `.value` of a `CapturePolicy` member. -/
def CapturePolicy.value : CapturePolicy → String
  | .never => "never"
  | .on_error => "on_error"
  | .always => "always"

/-- `constants.Redaction.REDACTED_VALUE`. -/
def REDACTED_VALUE : String := "[REDACTED]"

/-! ## Data model (`types.py`) -/

/-- `types.BodySnapshot`.  `data` is `Any` in Python, modelled as `JVal`. -/
structure BodySnapshot where
  captured : Bool
  encoding : Option String := none
  data : JVal := .jnull
  truncated : Bool := false
  size_bytes : Option Int := none
  hash : Option String := none

/-- `types.RequestSnapshot`.  Header and query dicts are association
lists in insertion order. -/
structure RequestSnapshot where
  method : String
  path : String
  route_template : Option String := none
  headers : List (String × String) := []
  query : List (String × String) := []
  body : Option BodySnapshot := none
  client_ip : Option String := none
  user_agent : Option String := none

/-- `types.ResponseSnapshot`. -/
structure ResponseSnapshot where
  status : Int
  headers : List (String × String) := []
  body : Option BodySnapshot := none
  duration_ms : Rat := 0

/-- `types.EventSignature`. -/
structure EventSignature where
  lib : String
  method : String
  url : Option String := none
  query : List (String × String) := []
  headers_hash : Option String := none
  body_hash : Option String := none

/-- `types.EventResult`. -/
structure EventResult where
  status : Option Int := none
  headers : List (String × String) := []
  body : Option BodySnapshot := none
  error : Option String := none
  error_type : Option String := none

/-- `types.DependencyEvent`. -/
structure DependencyEvent where
  eid : Int
  event_type : EventType
  start_offset_ms : Rat
  duration_ms : Rat
  signature : EventSignature
  result : EventResult

/-- `types.SessionMeta`. -/
structure SessionMeta where
  id : String
  recorded_at : String
  service : String
  env : String
  framework : String := "fastapi"
  timetracer_version : String := ""
  python_version : String := ""
  git_sha : Option String := none

/-- `types.CaptureStats`.  `event_counts` is an insertion-ordered dict. -/
structure CaptureStats where
  event_counts : List (String × Int) := []
  total_events : Int := 0
  total_duration_ms : Rat := 0

/-- `types.AppliedPolicies`. -/
structure AppliedPolicies where
  redaction_mode : String := "default"
  redaction_rules : List String := []
  max_body_kb : Int := 64
  store_request_body : String := "on_error"
  store_response_body : String := "on_error"
  sample_rate : Rat := 1
  errors_only : Bool := false

/-- `types.Cassette`.  `error_info` is `dict[str, Any] | None` in Python;
as produced by `TraceSession.mark_error` its values are strings, so it is
modelled as an association list of strings. -/
structure Cassette where
  schema_version : String
  session : SessionMeta
  request : RequestSnapshot
  response : ResponseSnapshot
  events : List DependencyEvent := []
  policies : AppliedPolicies := {}
  stats : CaptureStats := {}
  error_info : Option (List (String × String)) := none

/-! ## Record-mode session (`session.py`, `TraceSession`) -/

/-- The slice of `config.TraceConfig` that `TraceSession.to_cassette`
reads.  `python_version` models the value of
`config.get_python_version()`, which reads `sys.version_info` (an
environment input), and `timetracer_version` models the package
`__version__` ("1.4.0" in the source tree). -/
structure TraceConfig where
  service_name : String := "timetracer-service"
  env : String := "local"
  sample_rate : Rat := 1
  errors_only : Bool := false
  max_body_kb : Int := 64
  store_request_body : CapturePolicy := .on_error
  store_response_body : CapturePolicy := .on_error
  python_version : String := ""

/-- `timetracer.__version__`. -/
def TIMETRACER_VERSION : String := "1.4.0"

/-- `session.TraceSession`.  The uuid `_session_id` and the wall-clock
`_start_timestamp` are environment inputs and appear as plain fields. -/
structure TraceSession where
  config : TraceConfig
  session_id : String
  start_timestamp : String
  request : Option RequestSnapshot := none
  response : Option ResponseSnapshot := none
  events : List DependencyEvent := []
  event_counter : Nat := 0
  is_error : Bool := false
  error_info : Option (List (String × String)) := none
  finalized : Bool := false

/-- A fresh `TraceSession(config)`: dataclass defaults of `session.py`. -/
def TraceSession.new (config : TraceConfig) (sid ts : String) : TraceSession :=
  { config := config, session_id := sid, start_timestamp := ts }

/-- `TraceSession.add_event`.  Raises (modelled as `Except.error`) when
the session is finalized; the raise happens before any mutation, so the
returned state is the input state in that case.  Otherwise the counter
is bumped, the event eid is overwritten with the counter, and the event
is appended. -/
def TraceSession.add_event (s : TraceSession) (event : DependencyEvent) :
    Except String Unit × TraceSession :=
  if s.finalized then
    (.error "Cannot add events to a finalized session", s)
  else
    let counter := s.event_counter + 1
    let event := { event with eid := (counter : Int) }
    (.ok (), { s with event_counter := counter, events := s.events ++ [event] })

/-- `TraceSession.mark_error`. -/
def TraceSession.mark_error (s : TraceSession) (error_type error_message : String)
    (traceback : Option String := none) : TraceSession :=
  { s with
    is_error := true
    error_info := some ([("type", error_type), ("message", error_message)] ++
      match traceback with
      | some tb => [("traceback", tb)]
      | none => []) }

/-- `TraceSession.finalize`. -/
def TraceSession.finalize (s : TraceSession) : TraceSession :=
  { s with finalized := true }

/-- The `event_counts` accumulation of `TraceSession.to_cassette`:
`event_counts[k] = event_counts.get(k, 0) + 1` over events in order,
keeping first-occurrence insertion order as Python dicts do. -/
def incr_count : List (String × Int) → String → List (String × Int)
  | [], key => [(key, 1)]
  | (k, n) :: rest, key =>
      if k = key then (k, n + 1) :: rest else (k, n) :: incr_count rest key

/-- `TraceSession.to_cassette`.  `elapsed_ms` models the clock-derived
`self.elapsed_ms`, used only when no response was captured. -/
def TraceSession.to_cassette (s : TraceSession) (elapsed_ms : Rat) : Cassette :=
  let session_meta : SessionMeta :=
    { id := s.session_id
      recorded_at := s.start_timestamp
      service := s.config.service_name
      env := s.config.env
      framework := "fastapi"
      timetracer_version := TIMETRACER_VERSION
      python_version := s.config.python_version }
  let event_counts := s.events.foldl (fun acc e => incr_count acc e.event_type.value) []
  let stats : CaptureStats :=
    { event_counts := event_counts
      total_events := (s.events.length : Int)
      total_duration_ms :=
        match s.response with
        | some r => r.duration_ms
        | none => elapsed_ms }
  let policies : AppliedPolicies :=
    { redaction_mode := "default"
      redaction_rules := ["authorization", "cookie"]
      max_body_kb := s.config.max_body_kb
      store_request_body := s.config.store_request_body.value
      store_response_body := s.config.store_response_body.value
      sample_rate := s.config.sample_rate
      errors_only := s.config.errors_only }
  { schema_version := SCHEMA_VERSION
    session := session_meta
    request := s.request.getD { method := "", path := "" }
    response := s.response.getD { status := 0 }
    events := s.events
    policies := policies
    stats := stats
    error_info := if s.is_error then s.error_info else none }

/-! ## Cassette serialization (`cassette/io.py`, dict direction) -/

/-- Python truthiness for the optional-string fields tested with
`if x:` in the per-entity converters: `None` and `""` are falsy. -/
def truthyStr : Option String → Bool
  | none => false
  | some s => s ≠ ""

/-- Test for Python `x is None` on a dynamic value. -/
def JVal.isNull : JVal → Bool
  | .jnull => true
  | _ => false

/-- Serialize a header/query dict of strings. -/
def strDictToJ (d : List (String × String)) : JVal :=
  .jobj (JObj.ofList (d.map (fun p => (p.1, .jstr p.2))))

/-- `io._body_to_dict`. -/
def body_to_dict (body : BodySnapshot) : JObj :=
  JObj.ofList ([("_captured", .jbool body.captured)] ++
    (if truthyStr body.encoding then [("encoding", .jstr (body.encoding.getD ""))] else []) ++
    (if !body.data.isNull then [("data", body.data)] else []) ++
    (if body.truncated then [("truncated", .jbool body.truncated)] else []) ++
    (match body.size_bytes with
     | some n => [("size_bytes", .jint n)]
     | none => []) ++
    (if truthyStr body.hash then [("hash", .jstr (body.hash.getD ""))] else []))

/-- `io._session_meta_to_dict`. -/
def session_meta_to_dict (meta : SessionMeta) : JObj :=
  JObj.ofList
    [("id", .jstr meta.id),
     ("recorded_at", .jstr meta.recorded_at),
     ("service", .jstr meta.service),
     ("env", .jstr meta.env),
     ("framework", .jstr meta.framework),
     ("timetracer_version", .jstr meta.timetracer_version),
     ("python_version", .jstr meta.python_version),
     ("git_sha", match meta.git_sha with
       | some g => .jstr g
       | none => .jnull)]

/-- `io._request_to_dict`. -/
def request_to_dict (req : RequestSnapshot) : JObj :=
  JObj.ofList ([("method", .jstr req.method), ("path", .jstr req.path)] ++
    (if truthyStr req.route_template then
      [("route_template", .jstr (req.route_template.getD ""))] else []) ++
    (if req.headers ≠ [] then [("headers", strDictToJ req.headers)] else []) ++
    (if req.query ≠ [] then [("query", strDictToJ req.query)] else []) ++
    (match req.body with
     | some b => [("body", .jobj (body_to_dict b))]
     | none => []) ++
    (if truthyStr req.client_ip then [("client_ip", .jstr (req.client_ip.getD ""))] else []) ++
    (if truthyStr req.user_agent then [("user_agent", .jstr (req.user_agent.getD ""))] else []))

/-- `io._response_to_dict`. -/
def response_to_dict (res : ResponseSnapshot) : JObj :=
  JObj.ofList ([("status", .jint res.status), ("duration_ms", .jnum res.duration_ms)] ++
    (if res.headers ≠ [] then [("headers", strDictToJ res.headers)] else []) ++
    (match res.body with
     | some b => [("body", .jobj (body_to_dict b))]
     | none => []))

/-- `io._signature_to_dict`. -/
def signature_to_dict (sig : EventSignature) : JObj :=
  JObj.ofList ([("lib", .jstr sig.lib), ("method", .jstr sig.method)] ++
    (if truthyStr sig.url then [("url", .jstr (sig.url.getD ""))] else []) ++
    (if sig.query ≠ [] then [("query", strDictToJ sig.query)] else []) ++
    (if truthyStr sig.headers_hash then
      [("headers_hash", .jstr (sig.headers_hash.getD ""))] else []) ++
    (if truthyStr sig.body_hash then [("body_hash", .jstr (sig.body_hash.getD ""))] else []))

/-- `io._result_to_dict`. -/
def result_to_dict (result : EventResult) : JObj :=
  JObj.ofList (
    (match result.status with
     | some n => [("status", .jint n)]
     | none => []) ++
    (if result.headers ≠ [] then [("headers", strDictToJ result.headers)] else []) ++
    (match result.body with
     | some b => [("body", .jobj (body_to_dict b))]
     | none => []) ++
    (if truthyStr result.error then [("error", .jstr (result.error.getD ""))] else []) ++
    (if truthyStr result.error_type then
      [("error_type", .jstr (result.error_type.getD ""))] else []))

/-- `io._event_to_dict`. -/
def event_to_dict (event : DependencyEvent) : JObj :=
  JObj.ofList
    [("eid", .jint event.eid),
     ("type", .jstr event.event_type.value),
     ("start_offset_ms", .jnum event.start_offset_ms),
     ("duration_ms", .jnum event.duration_ms),
     ("signature", .jobj (signature_to_dict event.signature)),
     ("result", .jobj (result_to_dict event.result))]

/-- `io._policies_to_dict`. -/
def policies_to_dict (policies : AppliedPolicies) : JObj :=
  JObj.ofList
    [("redaction", .jobj (JObj.ofList
        [("mode", .jstr policies.redaction_mode),
         ("rules", .jarr (JArr.ofList (policies.redaction_rules.map (.jstr ·))))])),
     ("capture", .jobj (JObj.ofList
        [("max_body_kb", .jint policies.max_body_kb),
         ("store_request_body", .jstr policies.store_request_body),
         ("store_response_body", .jstr policies.store_response_body)])),
     ("sampling", .jobj (JObj.ofList
        [("rate", .jnum policies.sample_rate),
         ("errors_only", .jbool policies.errors_only)]))]

/-- `io._stats_to_dict`. -/
def stats_to_dict (stats : CaptureStats) : JObj :=
  JObj.ofList
    [("event_counts", .jobj (JObj.ofList (stats.event_counts.map (fun p => (p.1, .jint p.2))))),
     ("total_events", .jint stats.total_events),
     ("total_duration_ms", .jnum stats.total_duration_ms)]

/-- `io._cassette_to_dict`.  Note that `error_info` is not among the
serialized keys in the source. -/
def cassette_to_dict (cassette : Cassette) : JObj :=
  JObj.ofList
    [("schema_version", .jstr cassette.schema_version),
     ("session", .jobj (session_meta_to_dict cassette.session)),
     ("request", .jobj (request_to_dict cassette.request)),
     ("response", .jobj (response_to_dict cassette.response)),
     ("events", .jarr (JArr.ofList (cassette.events.map (fun e => .jobj (event_to_dict e))))),
     ("policies", .jobj (policies_to_dict cassette.policies)),
     ("stats", .jobj (stats_to_dict cassette.stats))]

/-! ## Cassette deserialization (`cassette/io.py`, cassette direction) -/

/-- Failure modes of `read_cassette` and `_dict_to_cassette`.
`schemaError` models `CassetteSchemaError(path, expected, actual)`;
`keyError` models a Python `KeyError` on a required key; `typeError`
marks a value whose runtime type does not fit the field (in Python this
would propagate an ill-typed value instead of raising; well-formed
cassettes never hit it); `valueError` models `ValueError` from
`EventType(...)`. -/
inductive ReadError where
  | schemaError (path : String) (expected_version : String) (actual_version : Option JVal)
  | keyError (key : String)
  | typeError (key : String)
  | valueError (message : String)

/-- `data[k]` expecting a string. -/
def JObj.reqStr (d : JObj) (k : String) : Except ReadError String :=
  match d.lookup k with
  | some (.jstr s) => .ok s
  | some _ => .error (.typeError k)
  | none => .error (.keyError k)

/-- `data.get(k, default)` expecting a string when present. -/
def JObj.getStrD (d : JObj) (k defaultv : String) : Except ReadError String :=
  match d.lookup k with
  | some (.jstr s) => .ok s
  | some _ => .error (.typeError k)
  | none => .ok defaultv

/-- `data.get(k)` expecting a string or `None` when present. -/
def JObj.getStrOpt (d : JObj) (k : String) : Except ReadError (Option String) :=
  match d.lookup k with
  | some (.jstr s) => .ok (some s)
  | some .jnull => .ok none
  | some _ => .error (.typeError k)
  | none => .ok none

/-- `data[k]` expecting an int. -/
def JObj.reqInt (d : JObj) (k : String) : Except ReadError Int :=
  match d.lookup k with
  | some (.jint n) => .ok n
  | some _ => .error (.typeError k)
  | none => .error (.keyError k)

/-- `data.get(k)` expecting an int or `None` when present. -/
def JObj.getIntOpt (d : JObj) (k : String) : Except ReadError (Option Int) :=
  match d.lookup k with
  | some (.jint n) => .ok (some n)
  | some .jnull => .ok none
  | some _ => .error (.typeError k)
  | none => .ok none

/-- `data.get(k, default)` expecting an int when present. -/
def JObj.getIntD (d : JObj) (k : String) (defaultv : Int) : Except ReadError Int :=
  match d.lookup k with
  | some (.jint n) => .ok n
  | some _ => .error (.typeError k)
  | none => .ok defaultv

/-- `data[k]` expecting a JSON number; ints are accepted as Python
accepts either for float-typed fields. -/
def JObj.reqNum (d : JObj) (k : String) : Except ReadError Rat :=
  match d.lookup k with
  | some (.jnum q) => .ok q
  | some (.jint n) => .ok (n : Rat)
  | some _ => .error (.typeError k)
  | none => .error (.keyError k)

/-- `data.get(k, default)` expecting a JSON number when present. -/
def JObj.getNumD (d : JObj) (k : String) (defaultv : Rat) : Except ReadError Rat :=
  match d.lookup k with
  | some (.jnum q) => .ok q
  | some (.jint n) => .ok (n : Rat)
  | some _ => .error (.typeError k)
  | none => .ok defaultv

/-- `data.get(k, default)` expecting a bool when present. -/
def JObj.getBoolD (d : JObj) (k : String) (defaultv : Bool) : Except ReadError Bool :=
  match d.lookup k with
  | some (.jbool b) => .ok b
  | some _ => .error (.typeError k)
  | none => .ok defaultv

/-- `data.get(k, {})` expecting a dict when present. -/
def JObj.getObjD (d : JObj) (k : String) : Except ReadError JObj :=
  match d.lookup k with
  | some (.jobj o) => .ok o
  | some _ => .error (.typeError k)
  | none => .ok .nil

/-- `data.get(k, [])` expecting a list when present. -/
def JObj.getArrD (d : JObj) (k : String) : Except ReadError (List JVal) :=
  match d.lookup k with
  | some (.jarr xs) =>
      .ok (let rec toList : JArr → List JVal
            | .nil => []
            | .cons v rest => v :: toList rest
          toList xs)
  | some _ => .error (.typeError k)
  | none => .ok []

/-- Read a dict of strings (headers, query). -/
def JObj.asStrDict : JObj → Except ReadError (List (String × String))
  | .nil => .ok []
  | .cons k (.jstr s) rest => do
      let r ← JObj.asStrDict rest
      .ok ((k, s) :: r)
  | .cons k _ _ => .error (.typeError k)

/-- Read a dict of ints (event counts). -/
def JObj.asIntDict : JObj → Except ReadError (List (String × Int))
  | .nil => .ok []
  | .cons k (.jint n) rest => do
      let r ← JObj.asIntDict rest
      .ok ((k, n) :: r)
  | .cons k _ _ => .error (.typeError k)

/-- `data.get(k, {})` read as a dict of strings. -/
def JObj.getStrDictD (d : JObj) (k : String) : Except ReadError (List (String × String)) := do
  let o ← d.getObjD k
  o.asStrDict

/-- `io._dict_to_body`. -/
def dict_to_body (data : JObj) : Except ReadError BodySnapshot := do
  let captured ← data.getBoolD "_captured" false
  let encoding ← data.getStrOpt "encoding"
  let bdata := (data.lookup "data").getD .jnull
  let truncated ← data.getBoolD "truncated" false
  let size_bytes ← data.getIntOpt "size_bytes"
  let hash ← data.getStrOpt "hash"
  .ok { captured := captured, encoding := encoding, data := bdata,
        truncated := truncated, size_bytes := size_bytes, hash := hash }

/-- The `"body" in data` pattern of the deserializers:
`_dict_to_body(data["body"]) if "body" in data else None`. -/
def JObj.getBodyOpt (d : JObj) : Except ReadError (Option BodySnapshot) :=
  match d.lookup "body" with
  | some (.jobj o) => do
      let b ← dict_to_body o
      .ok (some b)
  | some _ => .error (.typeError "body")
  | none => .ok none

/-- `io._dict_to_session_meta`.  The version field is
`data.get("timetracer_version") or data.get("timetrace_version", "")`:
Python `or` falls through on falsy (absent or empty) first operand. -/
def dict_to_session_meta (data : JObj) : Except ReadError SessionMeta := do
  let id ← data.reqStr "id"
  let recorded_at ← data.reqStr "recorded_at"
  let service ← data.getStrD "service" ""
  let env ← data.getStrD "env" ""
  let framework ← data.getStrD "framework" "fastapi"
  let v1 ← data.getStrOpt "timetracer_version"
  let version ←
    match v1 with
    | some s => if s ≠ "" then pure s else data.getStrD "timetrace_version" ""
    | none => data.getStrD "timetrace_version" ""
  let python_version ← data.getStrD "python_version" ""
  let git_sha ← data.getStrOpt "git_sha"
  .ok { id := id, recorded_at := recorded_at, service := service, env := env,
        framework := framework, timetracer_version := version,
        python_version := python_version, git_sha := git_sha }

/-- `io._dict_to_request`. -/
def dict_to_request (data : JObj) : Except ReadError RequestSnapshot := do
  let method ← data.reqStr "method"
  let path ← data.reqStr "path"
  let route_template ← data.getStrOpt "route_template"
  let headers ← data.getStrDictD "headers"
  let query ← data.getStrDictD "query"
  let body ← data.getBodyOpt
  let client_ip ← data.getStrOpt "client_ip"
  let user_agent ← data.getStrOpt "user_agent"
  .ok { method := method, path := path, route_template := route_template,
        headers := headers, query := query, body := body,
        client_ip := client_ip, user_agent := user_agent }

/-- `io._dict_to_response`. -/
def dict_to_response (data : JObj) : Except ReadError ResponseSnapshot := do
  let status ← data.reqInt "status"
  let headers ← data.getStrDictD "headers"
  let body ← data.getBodyOpt
  let duration_ms ← data.getNumD "duration_ms" 0
  .ok { status := status, headers := headers, body := body, duration_ms := duration_ms }

/-- `io._dict_to_signature`. -/
def dict_to_signature (data : JObj) : Except ReadError EventSignature := do
  let lib ← data.reqStr "lib"
  let method ← data.reqStr "method"
  let url ← data.getStrOpt "url"
  let query ← data.getStrDictD "query"
  let headers_hash ← data.getStrOpt "headers_hash"
  let body_hash ← data.getStrOpt "body_hash"
  .ok { lib := lib, method := method, url := url, query := query,
        headers_hash := headers_hash, body_hash := body_hash }

/-- `io._dict_to_result`. -/
def dict_to_result (data : JObj) : Except ReadError EventResult := do
  let status ← data.getIntOpt "status"
  let headers ← data.getStrDictD "headers"
  let body ← data.getBodyOpt
  let error ← data.getStrOpt "error"
  let error_type ← data.getStrOpt "error_type"
  .ok { status := status, headers := headers, body := body,
        error := error, error_type := error_type }

/-- `io._dict_to_event`. -/
def dict_to_event (data : JObj) : Except ReadError DependencyEvent := do
  let eid ← data.reqInt "eid"
  let type_str ← data.reqStr "type"
  let event_type ←
    match EventType.ofString type_str with
    | some t => pure t
    | none => Except.error (.valueError type_str)
  let start_offset_ms ← data.reqNum "start_offset_ms"
  let duration_ms ← data.reqNum "duration_ms"
  let sig_obj ←
    match data.lookup "signature" with
    | some (.jobj o) => pure o
    | some _ => Except.error (.typeError "signature")
    | none => Except.error (.keyError "signature")
  let signature ← dict_to_signature sig_obj
  let result_obj ← data.getObjD "result"
  let result ← dict_to_result result_obj
  .ok { eid := eid, event_type := event_type, start_offset_ms := start_offset_ms,
        duration_ms := duration_ms, signature := signature, result := result }

/-- `io._dict_to_policies`. -/
def dict_to_policies (data : JObj) : Except ReadError AppliedPolicies := do
  let redaction ← data.getObjD "redaction"
  let capture ← data.getObjD "capture"
  let sampling ← data.getObjD "sampling"
  let mode ← redaction.getStrD "mode" "default"
  let rules ←
    match redaction.lookup "rules" with
    | some (.jarr xs) =>
        let rec strList : JArr → Except ReadError (List String)
          | .nil => .ok []
          | .cons (.jstr s) rest => do
              let r ← strList rest
              .ok (s :: r)
          | .cons _ _ => .error (.typeError "rules")
        strList xs
    | some _ => Except.error (.typeError "rules")
    | none => pure []
  let max_body_kb ← capture.getIntD "max_body_kb" 64
  let store_request_body ← capture.getStrD "store_request_body" "on_error"
  let store_response_body ← capture.getStrD "store_response_body" "on_error"
  let rate ← sampling.getNumD "rate" 1
  let errors_only ← sampling.getBoolD "errors_only" false
  .ok { redaction_mode := mode, redaction_rules := rules, max_body_kb := max_body_kb,
        store_request_body := store_request_body, store_response_body := store_response_body,
        sample_rate := rate, errors_only := errors_only }

/-- `io._dict_to_stats`. -/
def dict_to_stats (data : JObj) : Except ReadError CaptureStats := do
  let counts_obj ← data.getObjD "event_counts"
  let event_counts ← counts_obj.asIntDict
  let total_events ← data.getIntD "total_events" 0
  let total_duration_ms ← data.getNumD "total_duration_ms" 0
  .ok { event_counts := event_counts, total_events := total_events,
        total_duration_ms := total_duration_ms }

/-- `io._dict_to_cassette`.  Note that no `error_info` key is read; the
resulting cassette always carries the dataclass default `None` there. -/
def dict_to_cassette (data : JObj) : Except ReadError Cassette := do
  let schema_version ← data.reqStr "schema_version"
  let session_obj ←
    match data.lookup "session" with
    | some (.jobj o) => pure o
    | some _ => Except.error (.typeError "session")
    | none => Except.error (.keyError "session")
  let session ← dict_to_session_meta session_obj
  let request_obj ←
    match data.lookup "request" with
    | some (.jobj o) => pure o
    | some _ => Except.error (.typeError "request")
    | none => Except.error (.keyError "request")
  let request ← dict_to_request request_obj
  let response_obj ←
    match data.lookup "response" with
    | some (.jobj o) => pure o
    | some _ => Except.error (.typeError "response")
    | none => Except.error (.keyError "response")
  let response ← dict_to_response response_obj
  let event_vals ← data.getArrD "events"
  let events ← event_vals.mapM (fun v =>
    match v with
    | .jobj o => dict_to_event o
    | _ => Except.error (.typeError "events"))
  let policies_obj ← data.getObjD "policies"
  let policies ← dict_to_policies policies_obj
  let stats_obj ← data.getObjD "stats"
  let stats ← dict_to_stats stats_obj
  .ok { schema_version := schema_version, session := session, request := request,
        response := response, events := events, policies := policies, stats := stats }

/-- `io._migrate_cassette`. -/
def migrate_cassette (data : JObj) (from_version : String) : JObj :=
  if from_version = "0.1" then data.set "schema_version" (.jstr SCHEMA_VERSION) else data

/-- Whether `data.get("schema_version")` is in
`SUPPORTED_SCHEMA_VERSIONS` (Python `in` on the tuple of strings: a
non-string value compares unequal to every member). -/
def supportedVersion : Option JVal → Bool
  | some (.jstr s) => SUPPORTED_SCHEMA_VERSIONS.contains s
  | _ => false

/-- `io.read_cassette`, from the parsed JSON mapping onward.  File
lookup, gzip detection and JSON parsing are modelled as producing
`data`; the schema check, migration and per-entity reconstruction
follow the source. -/
def read_cassette (path : String) (data : JObj) : Except ReadError Cassette := do
  let schema_version := data.lookup "schema_version"
  if supportedVersion schema_version then
    let v :=
      match schema_version with
      | some (.jstr s) => s
      | _ => ""
    let data := if v ≠ SCHEMA_VERSION then migrate_cassette data v else data
    dict_to_cassette data
  else
    .error (.schemaError path SCHEMA_VERSION schema_version)

/-- The round trip at the heart of the round-trip-fidelity claim:
serialize a cassette with `_cassette_to_dict` exactly as `write_cassette`
does, transport it through the file (identity on the mapping for both
the gzip and the plain configuration), and read it back with
`read_cassette`. -/
def cassette_file_roundtrip (c : Cassette) : Except ReadError Cassette :=
  read_cassette "cassette.json" (cassette_to_dict c)

/-! ## Replay-mode session (`session.py`, `ReplaySession`) -/

/-- `exceptions.ReplayMismatchError`.  `expected` and `actual` model the
keyword dicts; values are strings or Python `None`. -/
structure ReplayMismatchError where
  message : String
  cassette_path : Option String := none
  endpoint : Option String := none
  event_index : Option Nat := none
  expected : List (String × Option String) := []
  actual : List (String × Option String) := []
  hint : Option String := none
deriving DecidableEq

/-- The `actual_signature: dict[str, Any]` argument of
`get_next_event`: an association list from key to value, where a value
is a string or Python `None`.  Key absence (`"url" in actual_signature`
false) is distinct from a present `None` value. -/
def ActualSig : Type := List (String × Option String)

/-- `session.ReplaySession`.  `_cursor` and `_consumed_events` start at
`0` and `[]` (dataclass defaults). -/
structure ReplaySession where
  cassette : Cassette
  cassette_path : String
  strict : Bool := true
  cursor : Nat := 0
  consumed_events : List Nat := []

/-- `ReplaySession.peek_next_event`.  The method reads state and never
writes it; the returned second component is the post-call state. -/
def ReplaySession.peek_next_event (s : ReplaySession) (event_type : Option EventType) :
    Option DependencyEvent × ReplaySession :=
  if h : s.cursor < s.cassette.events.length then
    let event := s.cassette.events.get ⟨s.cursor, h⟩
    match event_type with
    | some t => if event.event_type ≠ t then (none, s) else (some event, s)
    | none => (some event, s)
  else
    (none, s)

/-- The `f"{method} {path}"` endpoint string used in every mismatch
error of `get_next_event`. -/
def ReplaySession.endpoint_str (s : ReplaySession) : String :=
  s.cassette.request.method ++ " " ++ s.cassette.request.path

/-- The field-by-field signature comparison inlined in
`get_next_event` (session.py lines 361..369): a `method` entry when the
key is present in `actual_signature` and differs from the recorded
method, then a `url` entry when the key is present and differs from the
recorded url.  Each entry carries (key, expected value, actual value). -/
def signature_mismatches (expected_sig : EventSignature) (actual_signature : ActualSig) :
    List (String × Option String × Option String) :=
  (match List.lookup "method" actual_signature with
   | some av => if av ≠ some expected_sig.method then
       [("method", (some expected_sig.method, av))] else []
   | none => []) ++
  (match List.lookup "url" actual_signature with
   | some av => if expected_sig.url ≠ av then
       [("url", (expected_sig.url, av))] else []
   | none => [])

/-- The `ReplayMismatchError` raised for a non-empty mismatch list in
strict mode (session.py lines 371..380). -/
def mk_signature_mismatch_error (s : ReplaySession) (event_type : EventType)
    (mismatches : List (String × Option String × Option String)) : ReplayMismatchError :=
  { message := event_type.value ++ " mismatch at event #" ++ toString s.cursor
    cassette_path := some s.cassette_path
    endpoint := some s.endpoint_str
    event_index := some s.cursor
    expected := mismatches.map (fun m => (m.1, m.2.1))
    actual := mismatches.map (fun m => (m.1, m.2.2))
    hint := some "Your dependency call changed (endpoint/method). Re-record cassette or disable strict replay." }

/-- `ReplaySession.get_next_event`.  The first component is the result:
`Except.error` models a raised `ReplayMismatchError`, `Except.ok none`
models the lenient `return None` paths, `Except.ok (some e)` the
matched event.  The second component is the post-call state; every
raise and every `return None` happens before the cursor advance, so the
state is unchanged on those paths. -/
def ReplaySession.get_next_event (s : ReplaySession) (event_type : EventType)
    (actual_signature : ActualSig) :
    Except ReplayMismatchError (Option DependencyEvent) × ReplaySession :=
  if h : s.cursor < s.cassette.events.length then
    let expected := s.cassette.events.get ⟨s.cursor, h⟩
    if expected.event_type ≠ event_type then
      if s.strict then
        (.error
          { message := "Event type mismatch at event #" ++ toString s.cursor
            cassette_path := some s.cassette_path
            endpoint := some s.endpoint_str
            event_index := some s.cursor
            expected := [("type", some expected.event_type.value)]
            actual := [("type", some event_type.value)]
            hint := some "Call order or type has changed. Re-record the cassette." }, s)
      else
        (.ok none, s)
    else
      let mismatches := signature_mismatches expected.signature actual_signature
      if mismatches ≠ [] ∧ s.strict then
        (.error (mk_signature_mismatch_error s event_type mismatches), s)
      else
        (.ok (some expected),
         { s with cursor := s.cursor + 1, consumed_events := s.consumed_events ++ [s.cursor] })
  else
    if s.strict then
      (.error
        { message := "Unexpected " ++ event_type.value ++ " call: no more events in cassette"
          cassette_path := some s.cassette_path
          endpoint := some s.endpoint_str
          event_index := some s.cursor
          actual := actual_signature
          hint := some "Your code is making more dependency calls than recorded. Re-record the cassette." }, s)
    else
      (.ok none, s)

/-- One observable call against a `ReplaySession`, for stating
properties of arbitrary call sequences. -/
inductive ReplayOp where
  | peek (event_type : Option EventType)
  | getNext (event_type : EventType) (actual_signature : ActualSig)

/-- The state after one call. -/
def ReplaySession.applyOp (s : ReplaySession) : ReplayOp → ReplaySession
  | .peek t => (s.peek_next_event t).2
  | .getNext t sig => (s.get_next_event t sig).2

/-- The state after a sequence of calls. -/
def ReplaySession.runOps (s : ReplaySession) : List ReplayOp → ReplaySession
  | [] => s
  | op :: rest => (s.applyOp op).runOps rest

/-! ## Regular expressions (model of the compiled `re` patterns of
`policies/redaction.py`)

A small derivative-based matcher.  Character classes are predicates;
each source pattern below is a direct transliteration of the Python
pattern it models.  `re.search` truthiness is "some substring matches";
`re.fullmatch` is "the whole string matches". -/

inductive RE where
  | emp : RE
  | eps : RE
  | cls : (Char → Bool) → RE
  | cat : RE → RE → RE
  | alt : RE → RE → RE
  | star : RE → RE

/-- Whether the empty string matches. -/
def RE.nullable : RE → Bool
  | .emp => false
  | .eps => true
  | .cls _ => false
  | .cat a b => a.nullable && b.nullable
  | .alt a b => a.nullable || b.nullable
  | .star _ => true

/-- Simplifying concatenation, to keep derivatives small. -/
def RE.mkCat : RE → RE → RE
  | .emp, _ => .emp
  | _, .emp => .emp
  | .eps, r => r
  | r, .eps => r
  | a, b => .cat a b

/-- Simplifying alternation. -/
def RE.mkAlt : RE → RE → RE
  | .emp, r => r
  | r, .emp => r
  | a, b => .alt a b

/-- Brzozowski derivative. -/
def RE.deriv : RE → Char → RE
  | .emp, _ => .emp
  | .eps, _ => .emp
  | .cls p, c => if p c then .eps else .emp
  | .cat a b, c =>
      if a.nullable then RE.mkAlt (RE.mkCat (a.deriv c) b) (b.deriv c)
      else RE.mkCat (a.deriv c) b
  | .alt a b, c => RE.mkAlt (a.deriv c) (b.deriv c)
  | .star r, c => RE.mkCat (r.deriv c) (.star r)

/-- Whole-list match (`re.fullmatch` truthiness). -/
def RE.matchesFrom (r : RE) : List Char → Bool
  | [] => r.nullable
  | c :: cs => (r.deriv c).matchesFrom cs

/-- Some prefix of the list matches. -/
def RE.matchesSomePrefix (r : RE) : List Char → Bool
  | [] => r.nullable
  | c :: cs => r.nullable || (r.deriv c).matchesSomePrefix cs

/-- `re.search` truthiness: some substring matches. -/
def RE.search (r : RE) : List Char → Bool
  | [] => r.nullable
  | l@(_ :: tl) => r.matchesSomePrefix l || r.search tl

/-- Python `\w` for the ASCII inputs at hand. -/
def isWordChar (c : Char) : Bool := c.isAlphanum || c == '_'

/-- A `\b` holds before the scan position given the previous char. -/
def boundaryBefore : Option Char → Bool
  | none => true
  | some c => !isWordChar c

/-- Some prefix matches and is followed by a word boundary; used for
patterns of the shape `\b core \b` whose core starts and ends with a
word character (the SSN, credit-card, IPv4 and IPv6 patterns), where
the leading `\b` reduces to a check on the previous character and the
trailing `\b` to a check on the next character. -/
def RE.matchesSomePrefixB (r : RE) : List Char → Bool
  | [] => r.nullable
  | c :: cs => (r.nullable && !isWordChar c) || (r.deriv c).matchesSomePrefixB cs

/-- `re.search` truthiness for `\b core \b` patterns. -/
def RE.searchB (r : RE) : Option Char → List Char → Bool
  | prev, [] => boundaryBefore prev && r.nullable
  | prev, l@(c :: tl) =>
      (boundaryBefore prev && r.matchesSomePrefixB l) || r.searchB (some c) tl

/-- Longest prefix match with a trailing word boundary, as a string;
`none` when no prefix matches. -/
def RE.longestPrefixB (r : RE) : List Char → Option (List Char)
  | [] => if r.nullable then some [] else none
  | c :: cs =>
      match (r.deriv c).longestPrefixB cs with
      | some m => some (c :: m)
      | none => if r.nullable && !isWordChar c then some [] else none

/-- The leftmost match of a `\b core \b` pattern (`match.group()` of
`re.search`), taking the longest match at the leftmost viable start. -/
def RE.firstMatchB (r : RE) : Option Char → List Char → Option (List Char)
  | prev, [] => if boundaryBefore prev then r.longestPrefixB [] else none
  | prev, l@(c :: tl) =>
      match (if boundaryBefore prev then r.longestPrefixB l else none) with
      | some m => some m
      | none => r.firstMatchB (some c) tl

/-- A single literal character. -/
def rchar (c : Char) : RE := .cls (fun x => x == c)

/-- `r+`. -/
def rplus (r : RE) : RE := .cat r (.star r)

/-- `r?`. -/
def ropt (r : RE) : RE := .alt r .eps

/-- `r{n}`. -/
def rrep (r : RE) : Nat → RE
  | 0 => .eps
  | n + 1 => .cat r (rrep r n)

/-- Right-nested concatenation of a list of pieces. -/
def rseq : List RE → RE
  | [] => .eps
  | [r] => r
  | r :: rest => .cat r (rseq rest)

/-- `\d`. -/
def rdigit : RE := .cls Char.isDigit

/-- `[-\s]` (ASCII whitespace, as in the Python class). -/
def rdashSpace : RE := .cls (fun c =>
  c == '-' || c == ' ' || c == '\t' || c == '\n' || c == '\r' || c == '\x0b' || c == '\x0c')

/-- `[-.\s]`. -/
def rdashDotSpace : RE := .cls (fun c =>
  c == '-' || c == '.' || c == ' ' || c == '\t' || c == '\n' || c == '\r' || c == '\x0b' || c == '\x0c')

/-- `_PII_PATTERNS["email"]`:
`[a-zA-Z0-9._%+-]+@[a-zA-Z0-9.-]+\.[a-zA-Z]{2,}` (the IGNORECASE flag
is inert: the classes already contain both cases). -/
def emailRE : RE :=
  rseq [rplus (.cls (fun c => c.isAlphanum || c == '.' || c == '_' || c == '%' || c == '+' || c == '-')),
        rchar '@',
        rplus (.cls (fun c => c.isAlphanum || c == '.' || c == '-')),
        rchar '.',
        .cls Char.isAlpha, .cls Char.isAlpha, .star (.cls Char.isAlpha)]

/-- The core of `_PII_PATTERNS["ssn"]`: `\d{3}[-\s]?\d{2}[-\s]?\d{4}`.
The surrounding `\b`s are vacuous under the `fullmatch` use site, being
adjacent to `\d` at both ends of the string. -/
def ssnCoreRE : RE :=
  rseq [rrep rdigit 3, ropt rdashSpace, rrep rdigit 2, ropt rdashSpace, rrep rdigit 4]

/-- The core of `_PII_PATTERNS["credit_card"]`:
`(?:\d{4}[-\s]?){3}\d{4}` between `\b`s. -/
def creditCardCoreRE : RE :=
  .cat (rrep (.cat (rrep rdigit 4) (ropt rdashSpace)) 3) (rrep rdigit 4)

/-- `_PII_PATTERNS["phone"]`:
`(?:\+\d{1,3}[-.\s]?)?\(?\d{3}\)?[-.\s]?\d{3}[-.\s]?\d{4}`. -/
def phoneRE : RE :=
  rseq [ropt (rseq [rchar '+', rdigit, ropt rdigit, ropt rdigit, ropt rdashDotSpace]),
        ropt (rchar '('),
        rrep rdigit 3,
        ropt (rchar ')'),
        ropt rdashDotSpace,
        rrep rdigit 3,
        ropt rdashDotSpace,
        rrep rdigit 4]

/-- One octet of the IPv4 pattern: `25[0-5]|2[0-4]\d|[01]?\d\d?`. -/
def ipv4OctetRE : RE :=
  .alt (rseq [rchar '2', rchar '5', .cls (fun c => '0' ≤ c && c ≤ '5')])
    (.alt (rseq [rchar '2', .cls (fun c => '0' ≤ c && c ≤ '4'), rdigit])
      (rseq [ropt (.cls (fun c => c == '0' || c == '1')), rdigit, ropt rdigit]))

/-- The core of `_PII_PATTERNS["ipv4"]`:
`(?:(?:25[0-5]|2[0-4]\d|[01]?\d\d?)\.){3}(?:25[0-5]|2[0-4]\d|[01]?\d\d?)`
between `\b`s. -/
def ipv4CoreRE : RE :=
  .cat (rrep (.cat ipv4OctetRE (rchar '.')) 3) ipv4OctetRE

/-- `[0-9a-fA-F]`. -/
def rhex : RE := .cls (fun c => c.isDigit || ('a' ≤ c && c ≤ 'f') || ('A' ≤ c && c ≤ 'F'))

/-- One group of the IPv6 pattern: `[0-9a-fA-F]{1,4}`. -/
def ipv6GroupRE : RE := rseq [rhex, ropt rhex, ropt rhex, ropt rhex]

/-- The core of `_PII_PATTERNS["ipv6"]`:
`(?:[0-9a-fA-F]{1,4}:){7}[0-9a-fA-F]{1,4}` between `\b`s. -/
def ipv6CoreRE : RE :=
  .cat (rrep (.cat ipv6GroupRE (rchar ':')) 7) ipv6GroupRE

/-! ## Redaction (`policies/redaction.py`) -/

/-- ASCII lowering, the behaviour of Python `str.lower()` on the ASCII
strings handled here. -/
def lowerStr (s : String) : String :=
  ⟨s.data.map Char.toLower⟩

/-- Python `value.startswith(prefix)`: code-point prefix test. -/
def startsWithStr (value pre : String) : Bool :=
  pre.data.isPrefixOf value.data

/-- Python substring test `needle in hay`. -/
def isSubstrOf (needle hay : List Char) : Bool :=
  needle.isPrefixOf hay ||
    match hay with
    | [] => false
    | _ :: t => isSubstrOf needle t

/-- `redaction._luhn_check`. -/
def luhn_check (card_number : List Char) : Bool :=
  let digits := (card_number.filter Char.isDigit).map (fun c => c.toNat - 48)
  if digits.length < 13 || digits.length > 19 then false
  else
    let checksum := (digits.reverse.enum.map (fun p =>
      if p.1 % 2 == 1 then
        let d := p.2 * 2
        if d > 9 then d - 9 else d
      else p.2)).sum
    checksum % 10 == 0

/-- `redaction.detect_pii`.  The source returns early from each
detector; a detector whose guard passes but whose extra condition fails
(credit card failing Luhn, phone with an out-of-range digit count)
falls through to the later detectors, hence the conjoined conditions. -/
def detect_pii (value : String) : Option String :=
  if value.data.length < 5 then none
  else if emailRE.search value.data then some "email"
  else if ssnCoreRE.matchesFrom ((value.data.filter (· ≠ '-')).filter (· ≠ ' ')) then some "ssn"
  else if (match creditCardCoreRE.firstMatchB none value.data with
           | some m => luhn_check m
           | none => false) then some "credit_card"
  else if phoneRE.search value.data &&
      (10 ≤ (value.data.filter Char.isDigit).length &&
       (value.data.filter Char.isDigit).length ≤ 15) then some "phone"
  else if ipv4CoreRE.searchB none value.data then some "ipv4"
  else if ipv6CoreRE.searchB none value.data then some "ipv6"
  else none

/-- ASCII uppercase of the PII tag, the behaviour of `str.upper()` on
the tags returned by `detect_pii`. -/
def upperStr (s : String) : String :=
  ⟨s.data.map Char.toUpper⟩

/-- The JWT test of `_mask_token_like`:
`value.startswith("eyJ") and value.count(".") == 2`. -/
def is_jwt_shaped (value : String) : Bool :=
  startsWithStr value "eyJ" && value.data.count '.' == 2

/-- The Bearer test of `_mask_token_like`:
`value.lower().startswith("bearer ")`. -/
def is_bearer_prefixed (value : String) : Bool :=
  startsWithStr (lowerStr value) "bearer "

/-- The API-key heuristic of `_mask_token_like`:
`len(value) > 32 and re.match(r"^[a-zA-Z0-9_-]+$", value)` conjoined
with the inner `re.search(r"[a-z]", ...) and re.search(r"[A-Z0-9_-]", ...)`
test — the source nests the two ifs, and when the outer test passes but
the inner fails control falls through to PII detection, which a single
conjoined condition reproduces. -/
def is_long_random_key (value : String) : Bool :=
  value.data.length > 32 &&
    RE.matchesFrom (rplus (.cls (fun c => c.isAlphanum || c == '_' || c == '-'))) value.data &&
    RE.search (.cls (fun c => 'a' ≤ c && c ≤ 'z')) value.data &&
    RE.search (.cls (fun c => ('A' ≤ c && c ≤ 'Z') || c.isDigit || c == '_' || c == '-')) value.data

/-- `redaction._mask_token_like`. -/
def mask_token_like (value : String) : String :=
  if is_jwt_shaped value then
    REDACTED_VALUE
  else if is_bearer_prefixed value then
    "Bearer " ++ REDACTED_VALUE
  else if is_long_random_key value then
    REDACTED_VALUE
  else
    match detect_pii value with
    | some pii_type => "[REDACTED:" ++ upperStr pii_type ++ "]"
    | none => value

/-- `constants.Redaction.SENSITIVE_BODY_KEYS` (a frozenset; listed here
in source order, which is irrelevant to the any/membership tests). -/
def SENSITIVE_BODY_KEYS : List String :=
  ["password", "passwd", "pwd", "secret", "auth_token", "auth_key",
   "token", "api_key", "apikey", "api-key", "access_token", "refresh_token",
   "id_token", "session_token", "session_id", "sessionid", "bearer", "jwt",
   "oauth", "private_key", "privatekey", "public_key", "signing_key",
   "encryption_key", "secret_key", "secretkey", "client_secret", "client_id",
   "csrf", "xsrf", "nonce", "otp", "totp", "hotp", "mfa", "2fa", "pin",
   "verification_code", "reset_token", "magic_link",
   "ssn", "social_security", "national_id", "passport", "driver_license",
   "drivers_license", "tax_id", "taxpayer",
   "phone", "mobile", "telephone", "fax", "email", "email_address",
   "date_of_birth", "dob", "birth_date", "birthdate", "age", "gender", "sex",
   "race", "ethnicity", "religion", "nationality",
   "address", "street", "zip_code", "zipcode", "postal_code", "postcode",
   "credit_card", "creditcard", "card_number", "cardnumber", "cc_number",
   "debit_card", "cvv", "cvc", "cvv2", "cvc2", "security_code", "expiry",
   "expiration", "exp_date", "exp_month", "exp_year", "cardholder",
   "bank_account", "account_number", "routing_number", "iban", "swift",
   "bic", "sort_code",
   "medical_record", "patient_id", "health_id", "diagnosis", "prescription",
   "treatment", "insurance_id", "member_id", "policy_number", "claim_number",
   "provider_id", "npi",
   "signature", "biometric", "fingerprint", "face_id", "voice_print",
   "ip_address", "mac_address", "device_id", "imei", "serial_number"]

/-- `redaction._is_sensitive_key`: exact lowercase match or
case-insensitive substring match. -/
def is_sensitive_key (key : String) (sensitive_keys : List String) : Bool :=
  let key_lower := lowerStr key
  sensitive_keys.contains key_lower ||
    sensitive_keys.any (fun sensitive => isSubstrOf sensitive.data key_lower.data)

mutual

/-- `redaction._redact_recursive` on a dynamic value. -/
def redact_recursive (sensitive_keys : List String) : JVal → JVal
  | .jobj fields => .jobj (redact_obj sensitive_keys fields)
  | .jarr items => .jarr (redact_arr sensitive_keys items)
  | .jstr s => .jstr (mask_token_like s)
  | v => v

/-- `_redact_recursive` on a dict: sensitive keys get the marker, other
values recurse. -/
def redact_obj (sensitive_keys : List String) : JObj → JObj
  | .nil => .nil
  | .cons k v rest =>
      .cons k
        (if is_sensitive_key k sensitive_keys then .jstr REDACTED_VALUE
         else redact_recursive sensitive_keys v)
        (redact_obj sensitive_keys rest)

/-- `_redact_recursive` on a list. -/
def redact_arr (sensitive_keys : List String) : JArr → JArr
  | .nil => .nil
  | .cons v rest => .cons (redact_recursive sensitive_keys v) (redact_arr sensitive_keys rest)

end

/-- `redaction.redact_body` with no additional sensitive keys: `None`
passes through, everything else goes to `_redact_recursive` with
`SENSITIVE_BODY_KEYS`. -/
def redact_body (body : JVal) : JVal :=
  match body with
  | .jnull => .jnull
  | b => redact_recursive SENSITIVE_BODY_KEYS b

/-- Driver for the sequential-eid claim: run a list of `add_event`
calls, recording whether every call succeeded. -/
def TraceSession.run_add_events : TraceSession → List DependencyEvent → Bool × TraceSession
  | s, [] => (true, s)
  | s, e :: rest =>
      let r := s.add_event e
      let next := r.2.run_add_events rest
      ((match r.1 with
        | .ok _ => true
        | .error _ => false) && next.1, next.2)

/-! ## Theorems -/

theorem add_event_step (s : TraceSession) (e : DependencyEvent)
    (hfin : s.finalized = false) :
    s.add_event e =
      (.ok (), { s with
        event_counter := s.event_counter + 1
        events := s.events ++ [{ e with eid := ((s.event_counter + 1 : Nat) : Int) }] }) := by
  simp [TraceSession.add_event, hfin]

theorem run_add_events_spec (es : List DependencyEvent) :
    ∀ s : TraceSession, s.finalized = false → s.event_counter = s.events.length →
      (s.run_add_events es).1 = true ∧
      (s.run_add_events es).2.events.map (·.eid) =
        s.events.map (·.eid) ++ (List.range' (s.events.length + 1) es.length).map (Int.ofNat ·) := by
  induction es with
  | nil => intro s hfin hctr; simp [TraceSession.run_add_events]
  | cons e rest ih =>
      intro s hfin hctr
      have hstep := add_event_step s e hfin
      have hih := ih { s with
          event_counter := s.event_counter + 1
          events := s.events ++ [{ e with eid := ((s.event_counter + 1 : Nat) : Int) }] }
        (by simp [hfin]) (by simp [hctr])
      simp only [TraceSession.run_add_events, hstep] at *
      refine ⟨by simpa using hih.1, ?_⟩
      rw [hih.2]
      simp [hctr, List.range', List.append_assoc]

/-- Claim C3: starting from a `TraceSession` that has not been
finalized and has recorded no events yet, N `add_event` calls all
succeed, the events list has length N, and the i-th event (0-based)
carries eid i+1 — eids are contiguous from 1, strictly increasing in
call order, and assigned by the session independently of the eids the
caller put on the events. -/
theorem trace_session_sequential_eids (s : TraceSession) (es : List DependencyEvent)
    (hfin : s.finalized = false) (hev : s.events = []) (hctr : s.event_counter = 0) :
    (s.run_add_events es).1 = true ∧
    (s.run_add_events es).2.events.length = es.length ∧
    (s.run_add_events es).2.events.map (·.eid) =
      (List.range' 1 es.length).map (Int.ofNat ·) := by
  have h := run_add_events_spec es s hfin (by simp [hctr, hev])
  have hmap : (s.run_add_events es).2.events.map (·.eid) =
      (List.range' 1 es.length).map (Int.ofNat ·) := by
    rw [h.2]
    simp [hev]
  refine ⟨h.1, ?_, hmap⟩
  have := congrArg List.length hmap
  simpa using this

/-- Witness for claim C3 at a concrete session and two events with
junk caller-side eids. -/
theorem trace_session_sequential_eids_witness :
    (({ config := {}, session_id := "sid", start_timestamp := "ts" : TraceSession }).run_add_events
        [{ eid := 99, event_type := .http_client, start_offset_ms := 0, duration_ms := 1,
           signature := { lib := "httpx", method := "GET" }, result := {} },
         { eid := 57, event_type := .db_query, start_offset_ms := 2, duration_ms := 1,
           signature := { lib := "sqlalchemy", method := "SELECT" }, result := {} }]).1 = true ∧
    (({ config := {}, session_id := "sid", start_timestamp := "ts" : TraceSession }).run_add_events
        [{ eid := 99, event_type := .http_client, start_offset_ms := 0, duration_ms := 1,
           signature := { lib := "httpx", method := "GET" }, result := {} },
         { eid := 57, event_type := .db_query, start_offset_ms := 2, duration_ms := 1,
           signature := { lib := "sqlalchemy", method := "SELECT" }, result := {} }]).2.events.length = 2 ∧
    (({ config := {}, session_id := "sid", start_timestamp := "ts" : TraceSession }).run_add_events
        [{ eid := 99, event_type := .http_client, start_offset_ms := 0, duration_ms := 1,
           signature := { lib := "httpx", method := "GET" }, result := {} },
         { eid := 57, event_type := .db_query, start_offset_ms := 2, duration_ms := 1,
           signature := { lib := "sqlalchemy", method := "SELECT" }, result := {} }]).2.events.map (·.eid) =
      (List.range' 1 2).map (Int.ofNat ·) :=
  trace_session_sequential_eids _ _ rfl rfl rfl

/-- Claim C5: `add_event` after `finalize` always fails with the
finalized-session error and returns the state unchanged (the raise
precedes any mutation), and `finalize` is idempotent: finalizing twice
yields exactly the state after finalizing once. -/
theorem finalize_lock (s : TraceSession) (e : DependencyEvent) :
    s.finalize.add_event e =
      (.error "Cannot add events to a finalized session", s.finalize) ∧
    s.finalize.finalize = s.finalize := by
  exact ⟨by simp [TraceSession.add_event, TraceSession.finalize], rfl⟩

/-- Witness for claim C5 at a concrete finalized session. -/
theorem finalize_lock_witness :
    ({ config := {}, session_id := "sid", start_timestamp := "ts" : TraceSession }).finalize.add_event
        { eid := 1, event_type := .custom, start_offset_ms := 0, duration_ms := 0,
          signature := { lib := "x", method := "op" }, result := {} } =
      (.error "Cannot add events to a finalized session",
       ({ config := {}, session_id := "sid", start_timestamp := "ts" : TraceSession }).finalize) ∧
    ({ config := {}, session_id := "sid", start_timestamp := "ts" : TraceSession }).finalize.finalize =
      ({ config := {}, session_id := "sid", start_timestamp := "ts" : TraceSession }).finalize :=
  finalize_lock _ _

theorem peek_state_unchanged (s : ReplaySession) (t : Option EventType) :
    (s.peek_next_event t).2 = s := by
  unfold ReplaySession.peek_next_event
  split
  · dsimp only
    split
    · split <;> rfl
    · rfl
  · rfl

theorem get_next_event_state (s : ReplaySession) (t : EventType) (sig : ActualSig) :
    (s.get_next_event t sig).2 = s ∨
    (s.get_next_event t sig).2 = { s with
      cursor := s.cursor + 1
      consumed_events := s.consumed_events ++ [s.cursor] } := by
  unfold ReplaySession.get_next_event
  split
  · dsimp only
    split
    · split
      · exact Or.inl rfl
      · exact Or.inl rfl
    · split
      · exact Or.inl rfl
      · exact Or.inr rfl
  · split
    · exact Or.inl rfl
    · exact Or.inl rfl

theorem applyOp_cursor_le (s : ReplaySession) (op : ReplayOp) :
    s.cursor ≤ (s.applyOp op).cursor := by
  cases op with
  | peek t => rw [ReplaySession.applyOp, peek_state_unchanged]
  | getNext t sig =>
      rw [ReplaySession.applyOp]
      rcases get_next_event_state s t sig with h | h
      · rw [h]
      · rw [h]; exact Nat.le_succ _

theorem runOps_cursor_le (ops : List ReplayOp) :
    ∀ s : ReplaySession, s.cursor ≤ (s.runOps ops).cursor := by
  induction ops with
  | nil => intro s; exact Nat.le_refl _
  | cons op rest ih =>
      intro s
      exact Nat.le_trans (applyOp_cursor_le s op) (ih (s.applyOp op))

theorem runOps_append (pre suf : List ReplayOp) :
    ∀ s : ReplaySession, s.runOps (pre ++ suf) = (s.runOps pre).runOps suf := by
  induction pre with
  | nil => intro s; rfl
  | cons op rest ih => intro s; simp [ReplaySession.runOps, ih]

/-- Claim C6: across any sequence of `get_next_event` and
`peek_next_event` calls the cursor never decreases (the state after any
extension of a call sequence has a cursor at least as large as after
the prefix), and `peek_next_event` leaves the session state — cursor
and consumed-events list — exactly unchanged. -/
theorem replay_cursor_monotone (s : ReplaySession) (pre suf : List ReplayOp) :
    (s.runOps pre).cursor ≤ (s.runOps (pre ++ suf)).cursor ∧
    ∀ t : Option EventType, (s.peek_next_event t).2 = s := by
  constructor
  · rw [runOps_append]
    exact runOps_cursor_le suf (s.runOps pre)
  · intro t
    exact peek_state_unchanged s t

/-- Claim C4: in strict mode, when the event at the cursor has a
different `event_type` than the expected one, `get_next_event` raises a
`ReplayMismatchError` carrying the expected and actual type, and the
session state — cursor and consumed-events list — is unchanged. -/
theorem replay_type_mismatch_strict (s : ReplaySession) (t : EventType) (sig : ActualSig)
    (h1 : s.strict = true) (h2 : s.cursor < s.cassette.events.length)
    (h3 : (s.cassette.events.get ⟨s.cursor, h2⟩).event_type ≠ t) :
    s.get_next_event t sig =
      (.error
        { message := "Event type mismatch at event #" ++ toString s.cursor
          cassette_path := some s.cassette_path
          endpoint := some s.endpoint_str
          event_index := some s.cursor
          expected := [("type", some (s.cassette.events.get ⟨s.cursor, h2⟩).event_type.value)]
          actual := [("type", some t.value)]
          hint := some "Call order or type has changed. Re-record the cassette." }, s) := by
  unfold ReplaySession.get_next_event
  rw [dif_pos h2, if_pos h3, if_pos h1]

/-- Witness for claim C4: a strict session whose first event is an
http.client event, asked for a db.query event. -/
theorem replay_type_mismatch_strict_witness :
    ({ cassette :=
        { schema_version := "1.0"
          session := { id := "s", recorded_at := "t", service := "svc", env := "local" }
          request := { method := "GET", path := "/x" }
          response := { status := 200 }
          events := [{ eid := 1, event_type := .http_client, start_offset_ms := 0, duration_ms := 1,
                       signature := { lib := "httpx", method := "GET",
                                      url := some "https://api.example.com/data" },
                       result := { status := some 200 } }] }
       cassette_path := "/test/path.json" : ReplaySession }).get_next_event .db_query [] =
      (.error
        { message := "Event type mismatch at event #0"
          cassette_path := some "/test/path.json"
          endpoint := some "GET /x"
          event_index := some 0
          expected := [("type", some "http.client")]
          actual := [("type", some "db.query")]
          hint := some "Call order or type has changed. Re-record the cassette." },
       { cassette :=
          { schema_version := "1.0"
            session := { id := "s", recorded_at := "t", service := "svc", env := "local" }
            request := { method := "GET", path := "/x" }
            response := { status := 200 }
            events := [{ eid := 1, event_type := .http_client, start_offset_ms := 0, duration_ms := 1,
                         signature := { lib := "httpx", method := "GET",
                                        url := some "https://api.example.com/data" },
                         result := { status := some 200 } }] }
         cassette_path := "/test/path.json" : ReplaySession }) :=
  replay_type_mismatch_strict _ _ _ rfl (by decide) (by decide)

/-- Claim C7: in lenient mode (`strict=False`), when the event at the
cursor has the expected type but the recorded signature mismatches the
actual one, `get_next_event` does not raise: it advances the cursor by
one, records the consumed index, and returns the recorded event. -/
theorem replay_lenient_signature_mismatch (s : ReplaySession) (t : EventType) (sig : ActualSig)
    (h1 : s.strict = false) (h2 : s.cursor < s.cassette.events.length)
    (h3 : (s.cassette.events.get ⟨s.cursor, h2⟩).event_type = t)
    (h4 : signature_mismatches (s.cassette.events.get ⟨s.cursor, h2⟩).signature sig ≠ []) :
    s.get_next_event t sig =
      (.ok (some (s.cassette.events.get ⟨s.cursor, h2⟩)),
       { s with
         cursor := s.cursor + 1
         consumed_events := s.consumed_events ++ [s.cursor] }) := by
  unfold ReplaySession.get_next_event
  rw [dif_pos h2, if_neg (by simp only [ne_eq, not_not]; exact h3),
    if_neg (fun hc => Bool.false_ne_true (h1.symm.trans hc.2))]

/-- Witness for claim C7: a lenient session whose recorded URL differs
from the actual one. -/
theorem replay_lenient_signature_mismatch_witness :
    ({ cassette :=
        { schema_version := "1.0"
          session := { id := "s", recorded_at := "t", service := "svc", env := "local" }
          request := { method := "GET", path := "/x" }
          response := { status := 200 }
          events := [{ eid := 1, event_type := .http_client, start_offset_ms := 0, duration_ms := 1,
                       signature := { lib := "httpx", method := "GET",
                                      url := some "https://api.example.com/data" },
                       result := { status := some 200 } }] }
       cassette_path := "/test/path.json"
       strict := false : ReplaySession }).get_next_event .http_client
        [("method", some "GET"), ("url", some "https://api.example.com/other")] =
      (.ok (some { eid := 1, event_type := .http_client, start_offset_ms := 0, duration_ms := 1,
                   signature := { lib := "httpx", method := "GET",
                                  url := some "https://api.example.com/data" },
                   result := { status := some 200 } }),
       { cassette :=
          { schema_version := "1.0"
            session := { id := "s", recorded_at := "t", service := "svc", env := "local" }
            request := { method := "GET", path := "/x" }
            response := { status := 200 }
            events := [{ eid := 1, event_type := .http_client, start_offset_ms := 0, duration_ms := 1,
                         signature := { lib := "httpx", method := "GET",
                                        url := some "https://api.example.com/data" },
                         result := { status := some 200 } }] }
         cassette_path := "/test/path.json"
         strict := false
         cursor := 1
         consumed_events := [0] : ReplaySession }) :=
  replay_lenient_signature_mismatch _ _ _ rfl (by decide) (by decide) (by decide)

/-- Claim C10: only keys present in the caller-provided
`actual_signature` dict are compared.  When neither a "method" nor a
"url" key is present, `get_next_event` never raises a signature
mismatch — in strict mode too — and consumes and returns the event
regardless of the recorded method and URL. -/
theorem replay_absent_keys_not_compared (s : ReplaySession) (t : EventType) (sig : ActualSig)
    (h2 : s.cursor < s.cassette.events.length)
    (h3 : (s.cassette.events.get ⟨s.cursor, h2⟩).event_type = t)
    (h4 : List.lookup "method" sig = none)
    (h5 : List.lookup "url" sig = none) :
    s.get_next_event t sig =
      (.ok (some (s.cassette.events.get ⟨s.cursor, h2⟩)),
       { s with
         cursor := s.cursor + 1
         consumed_events := s.consumed_events ++ [s.cursor] }) := by
  have hm : signature_mismatches (s.cassette.events.get ⟨s.cursor, h2⟩).signature sig = [] := by
    unfold signature_mismatches
    rw [h4, h5]
    rfl
  unfold ReplaySession.get_next_event
  rw [dif_pos h2, if_neg (by simp only [ne_eq, not_not]; exact h3),
    if_neg (fun hc => hc.1 hm)]

/-- Witness for claim C10: a strict session with a recorded method and
URL, called with an empty actual signature. -/
theorem replay_absent_keys_not_compared_witness :
    ({ cassette :=
        { schema_version := "1.0"
          session := { id := "s", recorded_at := "t", service := "svc", env := "local" }
          request := { method := "GET", path := "/x" }
          response := { status := 200 }
          events := [{ eid := 1, event_type := .http_client, start_offset_ms := 0, duration_ms := 1,
                       signature := { lib := "httpx", method := "GET",
                                      url := some "https://api.example.com/data" },
                       result := { status := some 200 } }] }
       cassette_path := "/test/path.json" : ReplaySession }).get_next_event .http_client [] =
      (.ok (some { eid := 1, event_type := .http_client, start_offset_ms := 0, duration_ms := 1,
                   signature := { lib := "httpx", method := "GET",
                                  url := some "https://api.example.com/data" },
                   result := { status := some 200 } }),
       { cassette :=
          { schema_version := "1.0"
            session := { id := "s", recorded_at := "t", service := "svc", env := "local" }
            request := { method := "GET", path := "/x" }
            response := { status := 200 }
            events := [{ eid := 1, event_type := .http_client, start_offset_ms := 0, duration_ms := 1,
                         signature := { lib := "httpx", method := "GET",
                                        url := some "https://api.example.com/data" },
                         result := { status := some 200 } }] }
         cassette_path := "/test/path.json"
         cursor := 1
         consumed_events := [0] : ReplaySession }) :=
  replay_absent_keys_not_compared _ _ _ (by decide) (by decide) rfl rfl

/-- Counterexample to claim C2: a strict replay session whose recorded
URL and actual URL differ only in the query string.  The claim says the
URLs are compared with query and fragment stripped, so no mismatch
error should be produced; the code compares the strings verbatim and
raises a url mismatch. -/
theorem replay_url_query_counterexample :
    ({ cassette :=
        { schema_version := "1.0"
          session := { id := "s", recorded_at := "t", service := "svc", env := "local" }
          request := { method := "GET", path := "/x" }
          response := { status := 200 }
          events := [{ eid := 1, event_type := .http_client, start_offset_ms := 0, duration_ms := 1,
                       signature := { lib := "httpx", method := "GET",
                                      url := some "https://api.example.com/data" },
                       result := { status := some 200 } }] }
       cassette_path := "/test/path.json" : ReplaySession }).get_next_event .http_client
        [("method", some "GET"), ("url", some "https://api.example.com/data?page=2")] =
      (.error
        { message := "http.client mismatch at event #0"
          cassette_path := some "/test/path.json"
          endpoint := some "GET /x"
          event_index := some 0
          expected := [("url", some "https://api.example.com/data")]
          actual := [("url", some "https://api.example.com/data?page=2")]
          hint := some "Your dependency call changed (endpoint/method). Re-record cassette or disable strict replay." },
       { cassette :=
          { schema_version := "1.0"
            session := { id := "s", recorded_at := "t", service := "svc", env := "local" }
            request := { method := "GET", path := "/x" }
            response := { status := 200 }
            events := [{ eid := 1, event_type := .http_client, start_offset_ms := 0, duration_ms := 1,
                         signature := { lib := "httpx", method := "GET",
                                        url := some "https://api.example.com/data" },
                         result := { status := some 200 } }] }
         cassette_path := "/test/path.json" : ReplaySession }) := by
  rfl

/-- Claim C2 as amended: `get_next_event` compares the recorded and
actual URLs verbatim (plain string equality, no query or fragment
stripping — normalization is done upstream by the plugins building
both signatures); in strict mode, whenever the url key is present and
its value differs textually from the recorded URL — including a
difference only in the query string or fragment — a signature mismatch
error is raised and the state is unchanged. -/
theorem replay_url_compared_verbatim (s : ReplaySession) (t : EventType) (sig : ActualSig)
    (v : Option String)
    (h1 : s.strict = true) (h2 : s.cursor < s.cassette.events.length)
    (h3 : (s.cassette.events.get ⟨s.cursor, h2⟩).event_type = t)
    (h4 : List.lookup "url" sig = some v)
    (h5 : (s.cassette.events.get ⟨s.cursor, h2⟩).signature.url ≠ v) :
    s.get_next_event t sig =
      (.error (mk_signature_mismatch_error s t
        (signature_mismatches (s.cassette.events.get ⟨s.cursor, h2⟩).signature sig)), s) ∧
    signature_mismatches (s.cassette.events.get ⟨s.cursor, h2⟩).signature sig ≠ [] := by
  have hne : signature_mismatches (s.cassette.events.get ⟨s.cursor, h2⟩).signature sig ≠ [] := by
    unfold signature_mismatches
    rw [h4]
    dsimp only
    rw [if_pos h5]
    simp
  refine ⟨?_, hne⟩
  unfold ReplaySession.get_next_event
  rw [dif_pos h2, if_neg (by simp only [ne_eq, not_not]; exact h3), if_pos ⟨hne, h1⟩]

/-- Witness for the amended claim C2, at the query-string example. -/
theorem replay_url_compared_verbatim_witness :
    ({ cassette :=
        { schema_version := "1.0"
          session := { id := "s", recorded_at := "t", service := "svc", env := "local" }
          request := { method := "GET", path := "/x" }
          response := { status := 200 }
          events := [{ eid := 1, event_type := .http_client, start_offset_ms := 0, duration_ms := 1,
                       signature := { lib := "httpx", method := "GET",
                                      url := some "https://api.example.com/data" },
                       result := { status := some 200 } }] }
       cassette_path := "/test/path.json" : ReplaySession }).get_next_event .http_client
        [("method", some "GET"), ("url", some "https://api.example.com/data?page=2")] =
      (.error (mk_signature_mismatch_error
        { cassette :=
            { schema_version := "1.0"
              session := { id := "s", recorded_at := "t", service := "svc", env := "local" }
              request := { method := "GET", path := "/x" }
              response := { status := 200 }
              events := [{ eid := 1, event_type := .http_client, start_offset_ms := 0, duration_ms := 1,
                           signature := { lib := "httpx", method := "GET",
                                          url := some "https://api.example.com/data" },
                           result := { status := some 200 } }] }
          cassette_path := "/test/path.json" : ReplaySession } .http_client
        (signature_mismatches
          { lib := "httpx", method := "GET", url := some "https://api.example.com/data" }
          [("method", some "GET"), ("url", some "https://api.example.com/data?page=2")])),
       { cassette :=
          { schema_version := "1.0"
            session := { id := "s", recorded_at := "t", service := "svc", env := "local" }
            request := { method := "GET", path := "/x" }
            response := { status := 200 }
            events := [{ eid := 1, event_type := .http_client, start_offset_ms := 0, duration_ms := 1,
                         signature := { lib := "httpx", method := "GET",
                                        url := some "https://api.example.com/data" },
                         result := { status := some 200 } }] }
         cassette_path := "/test/path.json" : ReplaySession }) ∧
    signature_mismatches
        { lib := "httpx", method := "GET", url := some "https://api.example.com/data" }
        [("method", some "GET"), ("url", some "https://api.example.com/data?page=2")] ≠ [] :=
  replay_url_compared_verbatim _ _ _ (some "https://api.example.com/data?page=2")
    rfl (by decide) (by decide) (by decide) (by decide)

theorem JObj.lookup_set_self : (o : JObj) → (k : String) → (v : JVal) →
    (o.set k v).lookup k = some v
  | .nil, k, v => by simp [JObj.set, JObj.lookup]
  | .cons k2 w rest, k, v => by
      by_cases h : k2 = k
      · simp [JObj.set, JObj.lookup, h]
      · simp [JObj.set, JObj.lookup, h, JObj.lookup_set_self rest k v]

theorem dict_to_cassette_version (data : JObj) (c : Cassette)
    (h : dict_to_cassette data = .ok c) :
    data.reqStr "schema_version" = .ok c.schema_version := by
  unfold dict_to_cassette at h
  simp only [bind, Except.bind, pure, Except.pure] at h
  repeat' split at h
  all_goals (cases h; try simp_all)

/-- Claim C8: `read_cassette` rejects any parsed mapping whose
`schema_version` is outside the supported set ("0.1", "1.0") with a
schema error carrying the file path and the expected vs. actual
version; a mapping at the older supported version "0.1" whose body is a
well-formed cassette is migrated forward — the loaded cassette carries
schema_version "1.0" — and loading succeeds. -/
theorem read_cassette_schema_check (path : String) (bad good : JObj) (c : Cassette)
    (h1 : supportedVersion (bad.lookup "schema_version") = false)
    (h2 : good.lookup "schema_version" = some (.jstr "0.1"))
    (h3 : dict_to_cassette (migrate_cassette good "0.1") = .ok c) :
    read_cassette path bad =
      .error (.schemaError path SCHEMA_VERSION (bad.lookup "schema_version")) ∧
    read_cassette path good = .ok c ∧
    c.schema_version = "1.0" := by
  refine ⟨?_, ?_, ?_⟩
  · simp [read_cassette, h1]
  · simp [read_cassette, h2, supportedVersion, SUPPORTED_SCHEMA_VERSIONS, SCHEMA_VERSION, h3]
  · have hv := dict_to_cassette_version _ _ h3
    have hset : migrate_cassette good "0.1" = good.set "schema_version" (.jstr "1.0") := by
      simp [migrate_cassette, SCHEMA_VERSION]
    rw [hset] at hv
    rw [JObj.reqStr, JObj.lookup_set_self] at hv
    exact (Except.ok.injEq _ _ ▸ hv).symm

/-- Witness for claim C8: a mapping at unsupported version "2.0" is
rejected with a schema error; a minimal well-formed mapping at version
"0.1" loads and comes back at version "1.0". -/
theorem read_cassette_schema_check_witness :
    read_cassette "/tmp/old.json" (JObj.ofList [("schema_version", .jstr "2.0")]) =
      .error (.schemaError "/tmp/old.json" SCHEMA_VERSION
        ((JObj.ofList [("schema_version", .jstr "2.0")]).lookup "schema_version")) ∧
    read_cassette "/tmp/old.json"
      (JObj.ofList
        [("schema_version", .jstr "0.1"),
         ("session", .jobj (JObj.ofList [("id", .jstr "s1"), ("recorded_at", .jstr "t1")])),
         ("request", .jobj (JObj.ofList [("method", .jstr "GET"), ("path", .jstr "/x")])),
         ("response", .jobj (JObj.ofList [("status", .jint 200)]))]) =
      .ok
        { schema_version := "1.0"
          session := { id := "s1", recorded_at := "t1", service := "", env := "" }
          request := { method := "GET", path := "/x" }
          response := { status := 200 } } ∧
    ({ schema_version := "1.0"
       session := { id := "s1", recorded_at := "t1", service := "", env := "" }
       request := { method := "GET", path := "/x" }
       response := { status := 200 } : Cassette }).schema_version = "1.0" :=
  read_cassette_schema_check "/tmp/old.json" _ _ _ rfl rfl rfl

/-- Claim C1 (code evaluated at the failing input): a finalized
`TraceSession` on which `mark_error` was called produces a cassette
whose `error_info` is set, but the write/read round trip —
`_cassette_to_dict` followed by `read_cassette` on the same mapping,
the file transport being the identity for both the compressed and the
uncompressed configuration — returns the cassette with every other
field intact and `error_info` reset to `None`: `_cassette_to_dict`
never serializes `error_info` and `_dict_to_cassette` never restores
it, so it does not survive the round trip as the claim requires. -/
theorem roundtrip_drops_error_info :
    (let s0 : TraceSession :=
      { config := { python_version := "3.12.0" }
        session_id := "sid-1234"
        start_timestamp := "2026-02-03T04:05:06+00:00"
        request := some
          { method := "GET"
            path := "/x"
            headers := [("content-type", "application/json")]
            body := some { captured := true, encoding := some "json", data := .jstr "hello",
                           size_bytes := some 5, hash := some "h123" }
            client_ip := some "127.0.0.1"
            user_agent := some "ua" }
        response := some { status := 200, headers := [("x", "y")], duration_ms := 50 } }
    let s1 := (s0.add_event
      { eid := 99, event_type := .http_client, start_offset_ms := 2, duration_ms := 5,
        signature := { lib := "httpx", method := "GET",
                       url := some "https://api.example.com/data", body_hash := some "bh" },
        result := { status := some 200, headers := [("content-type", "application/json")],
                    body := some { captured := true, encoding := some "json",
                                   data := .jstr "ok" } } }).2
    let s := (s1.mark_error "ValueError" "boom" none).finalize
    let c := s.to_cassette 12
    c.error_info = some [("type", "ValueError"), ("message", "boom")] ∧
      cassette_file_roundtrip c = .ok { c with error_info := none }) :=
  ⟨rfl, rfl⟩

theorem detect_pii_mem (s : String) :
    detect_pii s = none ∨ detect_pii s = some "email" ∨ detect_pii s = some "ssn" ∨
    detect_pii s = some "credit_card" ∨ detect_pii s = some "phone" ∨
    detect_pii s = some "ipv4" ∨ detect_pii s = some "ipv6" := by
  unfold detect_pii
  split_ifs <;> simp

theorem mask_pii_branch (s t : String) (h1 : ¬is_jwt_shaped s = true)
    (h2 : ¬is_bearer_prefixed s = true) (h3 : ¬is_long_random_key s = true)
    (h : detect_pii s = some t) :
    mask_token_like s = "[REDACTED:" ++ upperStr t ++ "]" := by
  unfold mask_token_like
  rw [if_neg h1, if_neg h2, if_neg h3, h]

theorem mask_token_like_idem (s : String) :
    mask_token_like (mask_token_like s) = mask_token_like s := by
  by_cases h1 : is_jwt_shaped s = true
  · have hm : mask_token_like s = REDACTED_VALUE := by
      unfold mask_token_like; rw [if_pos h1]
    rw [hm]; decide
  · by_cases h2 : is_bearer_prefixed s = true
    · have hm : mask_token_like s = "Bearer " ++ REDACTED_VALUE := by
        unfold mask_token_like; rw [if_neg h1, if_pos h2]
      rw [hm]; decide
    · by_cases h3 : is_long_random_key s = true
      · have hm : mask_token_like s = REDACTED_VALUE := by
          unfold mask_token_like; rw [if_neg h1, if_neg h2, if_pos h3]
        rw [hm]; decide
      · rcases detect_pii_mem s with h | h | h | h | h | h | h
        · have hm : mask_token_like s = s := by
            unfold mask_token_like; rw [if_neg h1, if_neg h2, if_neg h3, h]
          rw [hm]; exact hm
        · rw [mask_pii_branch s "email" h1 h2 h3 h]; decide
        · rw [mask_pii_branch s "ssn" h1 h2 h3 h]; decide
        · rw [mask_pii_branch s "credit_card" h1 h2 h3 h]; decide
        · rw [mask_pii_branch s "phone" h1 h2 h3 h]; decide
        · rw [mask_pii_branch s "ipv4" h1 h2 h3 h]; decide
        · rw [mask_pii_branch s "ipv6" h1 h2 h3 h]; decide

mutual

theorem redact_recursive_idem (keys : List String) : (v : JVal) →
    redact_recursive keys (redact_recursive keys v) = redact_recursive keys v
  | .jnull => rfl
  | .jbool _ => rfl
  | .jint _ => rfl
  | .jnum _ => rfl
  | .jstr s => by simp [redact_recursive, mask_token_like_idem]
  | .jarr xs => by simp [redact_recursive, redact_arr_idem keys xs]
  | .jobj fs => by simp [redact_recursive, redact_obj_idem keys fs]

theorem redact_obj_idem (keys : List String) : (o : JObj) →
    redact_obj keys (redact_obj keys o) = redact_obj keys o
  | .nil => rfl
  | .cons k v rest => by
      by_cases h : is_sensitive_key k keys = true
      · simp [redact_obj, h, redact_obj_idem keys rest]
      · simp [redact_obj, h, redact_obj_idem keys rest, redact_recursive_idem keys v]

theorem redact_arr_idem (keys : List String) : (a : JArr) →
    redact_arr keys (redact_arr keys a) = redact_arr keys a
  | .nil => rfl
  | .cons v rest => by
      simp [redact_arr, redact_recursive_idem keys v, redact_arr_idem keys rest]

end

/-- Claim C9: `redact_body` is idempotent on every nested JSON-like
value — dicts, lists, strings and scalars — and the redaction markers
"[REDACTED]", "Bearer [REDACTED]" and "[REDACTED:EMAIL]" are fixed
points of the string-masking step `_mask_token_like`. -/
theorem redact_body_idempotent :
    (∀ x : JVal, redact_body (redact_body x) = redact_body x) ∧
    mask_token_like "[REDACTED]" = "[REDACTED]" ∧
    mask_token_like "Bearer [REDACTED]" = "Bearer [REDACTED]" ∧
    mask_token_like "[REDACTED:EMAIL]" = "[REDACTED:EMAIL]" := by
  refine ⟨?_, by decide, by decide, by decide⟩
  intro x
  cases x with
  | jnull => rfl
  | jbool b => rfl
  | jint n => rfl
  | jnum q => rfl
  | jstr s => simp [redact_body, redact_recursive, mask_token_like_idem]
  | jarr xs => simp [redact_body, redact_recursive, redact_arr_idem]
  | jobj fs => simp [redact_body, redact_recursive, redact_obj_idem]

end Timetracer
